import Mathlib

/-!
Verification of the Hermes RAG backend (src/backend/rag_engine.py and
src/backend/rag_service.py).

Shallow embedding conventions:
  * Python floats are modelled as exact reals (ℝ).
  * Python strings are Lean `String`; `str.strip()` is modelled by `pyStrip`
    (drop leading and trailing whitespace characters).
  * Fallible external collaborators (the vector store and the language-model
    chain) are modelled as capability records whose methods return
    `Except String α`; a raised Python exception `e` is `Except.error (str e)`.
  * `qa_chain` (rag_engine.py lines 83-97) is a langchain `RetrievalQA` whose
    only input key is `"query"`: on every `invoke` it runs its OWN retrieval
    (the retriever over the same vector store, `k = 3`) and substitutes those
    documents' contents, joined by blank lines, into the context slot of
    `custom_prompt`; an extra `"context"` key passed to `invoke` is silently
    ignored (langchain input validation only checks for missing keys).
    `qa_chain_invoke` models this faithfully: it takes the caller-passed
    context and discards it.  The dict-unwrapping of the chain result
    (`response.get("result", "")`) is folded into the capability, which
    directly returns the result string.
-/

/-- A retrievable text chunk (langchain `Document`); only `page_content` is
used by the engine. -/
structure Chunk where
  page_content : String
deriving DecidableEq, Repr

/-- Python `str.strip()`: remove leading and trailing whitespace. -/
def pyStrip (s : String) : String :=
  String.mk (((s.data.dropWhile Char.isWhitespace).reverse.dropWhile Char.isWhitespace).reverse)

/-- rag_engine.py line 105: `not query or not query.strip()` — the query is
empty or consists only of whitespace. -/
def isBlank (q : String) : Bool :=
  q == "" || pyStrip q == ""

/-- rag_engine.py lines 99-102: `calculate_relevance_score(score)` converts a
raw cosine distance to a relevance percentage, `100 * np.exp(-3 * score)`. -/
noncomputable def calculate_relevance_score (score : ℝ) : ℝ :=
  100 * Real.exp (-3 * score)

/-- `np.mean`: arithmetic mean of a list (used on a nonempty list,
rag_engine.py line 128). -/
noncomputable def np_mean (xs : List ℝ) : ℝ :=
  xs.sum / xs.length

/-- Population variance: mean of squared deviations from the mean
(the quantity under the square root in `np.std`, which uses `ddof = 0`). -/
noncomputable def popVariance (xs : List ℝ) : ℝ :=
  ((xs.map (fun x => (x - np_mean xs) ^ 2)).sum) / xs.length

/-- `np.std`: population standard deviation. -/
noncomputable def np_std (xs : List ℝ) : ℝ :=
  Real.sqrt (popVariance xs)

/-- rag_engine.py line 129: `np.std(all_scores) if len(all_scores) > 1 else 0`. -/
noncomputable def np_std_guarded (xs : List ℝ) : ℝ :=
  if 1 < xs.length then np_std xs else 0

/-- rag_engine.py lines 126-143: the adaptive acceptance threshold.
`base_threshold = 60`; if the batch is empty the threshold defaults to 60,
otherwise it is bumped to `60 + 10` when `mean_score < 40 or std_score > 20`. -/
noncomputable def computeThreshold (all_scores : List ℝ) : ℝ :=
  if all_scores = [] then 60
  else if np_mean all_scores < 40 ∨ np_std_guarded all_scores > 20 then 60 + 10
  else 60

/-- rag_engine.py lines 147-160: the filtering loop over
`zip(docs_and_scores, all_scores)`; a document is appended to `filtered_docs`
iff `relevance_score >= threshold`. -/
noncomputable def filterLoop (threshold : ℝ) :
    List ((Chunk × ℝ) × ℝ) → List Chunk
  | [] => []
  | ((doc, _raw), relevance) :: rest =>
    if relevance ≥ threshold then doc :: filterLoop threshold rest
    else filterLoop threshold rest

/-- External collaborators of the engine: the vector store
(`vectordb.similarity_search_with_score`, taking the query and `k`) and the
language model reached through the QA chain (prompt text to completion). -/
structure Caps where
  similarity_search_with_score : String → Nat → Except String (List (Chunk × ℝ))
  llm : String → Except String String

/-- rag_engine.py lines 60-80: the `custom_prompt` template with the two
substitution slots filled. -/
def custom_prompt (context question : String) : String :=
  "\nYou are a helpful and concise assistant. You will be provided with a question and some context.\n\nInstructions:\n1. ONLY use the provided context if it contains RELEVANT information to answer the question.\n2. If the context is NOT relevant, IGNORE it and answer the question using your own knowledge.\n3. Do NOT generate creative or fictional answers.\n4. Do NOT attempt to justify or infer using the context if it\x27s unrelated.\n5. Keep your response short and factual.\n\nContext:\n" ++ context ++ "\n\nQuestion:\n" ++ question ++ "\n\nAnswer:\n"

/-- rag_engine.py line 170, the fallback returned when the no-context chain
call produces a falsy (empty) response. -/
def noInfoMsg : String :=
  "I don\x27t have any relevant information from the provided documents to answer your question. Let me answer based on my general knowledge."

/-- rag_engine.py line 185, the apology substituted for a blank response on
the context path. -/
def apologyMsg : String :=
  "I apologize, but I couldn\x27t generate a meaningful response. Please try rephrasing your question."

/-- rag_engine.py line 106, the fixed reply to a blank query. -/
def promptForInputMsg : String :=
  "Please provide a valid question."

/-- rag_engine.py lines 120-123: `all_scores`, the relevance score of each
retrieved candidate. -/
noncomputable def relScores (docs_and_scores : List (Chunk × ℝ)) : List ℝ :=
  docs_and_scores.map (fun ds => calculate_relevance_score ds.2)

/-- rag_engine.py lines 115-160 combined: `filtered_docs` for one retrieval
result — the filtering loop run with the adaptive threshold computed from
this batch of scores. -/
noncomputable def filteredOf (docs_and_scores : List (Chunk × ℝ)) : List Chunk :=
  filterLoop (computeThreshold (relScores docs_and_scores))
    (docs_and_scores.zip (relScores docs_and_scores))

/-- rag_engine.py line 173: `context = "\n\n".join(doc.page_content for doc in
filtered_docs)`. -/
noncomputable def contextOf (docs_and_scores : List (Chunk × ℝ)) : String :=
  String.intercalate "\n\n" ((filteredOf docs_and_scores).map (fun d => d.page_content))

/-- The context string `RetrievalQA` itself builds on an `invoke`: the
contents of the documents its retriever returns (the same vector store, same
`similarity` search, same `k = 3` as `similarity_search_with_score`), joined
by the stuff chain's default blank-line separator. -/
def chainContext (docs_and_scores : List (Chunk × ℝ)) : String :=
  String.intercalate "\n\n" (docs_and_scores.map (fun d => d.1.page_content))

/-- `qa_chain.invoke` with a `"query"` key and an extra `"context"` key
(rag_engine.py lines 167 and 177).  `RetrievalQA`'s only input key is
`"query"`, so the passed context (`_context`) is IGNORED: the chain runs its
own retrieval over the shared vector store and substitutes those documents'
contents into the context slot of `custom_prompt` before calling the
language model.  Its internal retrieval is the same capability as
`similarity_search_with_score` (same store, search type and `k`), projected
to documents; a raised retrieval or model exception surfaces as
`Except.error`. -/
noncomputable def qa_chain_invoke (caps : Caps) (query : String)
    (_context : String) : Except String String :=
  match caps.similarity_search_with_score query 3 with
  | Except.error e => Except.error e
  | Except.ok docs_and_scores =>
    caps.llm (custom_prompt (chainContext docs_and_scores) query)

/-- rag_engine.py lines 109-186: the body of the `try` block of
`get_rag_response`.  A raised collaborator exception surfaces as
`Except.error`.
  * retrieval: `similarity_search_with_score(query, k=3)` (line 111);
  * no-evidence branch (lines 162-170): chain invoked with the empty string
    passed as context (and ignored by the chain); `return response or
    fallback` returns the fallback exactly when the response string is empty;
  * evidence branch (lines 172-186): chain invoked with the joined filtered
    context passed (and ignored by the chain); a response that is empty or
    all-whitespace is replaced by the apology. -/
noncomputable def ragBody (caps : Caps) (query : String) : Except String String :=
  match caps.similarity_search_with_score query 3 with
  | Except.error e => Except.error e
  | Except.ok docs_and_scores =>
    if filteredOf docs_and_scores = [] then
      match qa_chain_invoke caps query "" with
      | Except.error e => Except.error e
      | Except.ok response =>
        Except.ok (if response == "" then noInfoMsg else response)
    else
      match qa_chain_invoke caps query (contextOf docs_and_scores) with
      | Except.error e => Except.error e
      | Except.ok response =>
        Except.ok (if response == "" || pyStrip response == "" then apologyMsg
                   else response)

/-- rag_engine.py lines 104-190: `get_rag_response`.  Blank queries are
answered immediately; any exception `e` escaping the `try` body is caught and
converted to `"Error processing query: " ++ str e` (lines 187-190). -/
noncomputable def get_rag_response (caps : Caps) (query : String) : String :=
  if isBlank query then promptForInputMsg
  else
    match ragBody caps query with
    | Except.ok r => r
    | Except.error e => "Error processing query: " ++ e

/-- A Python exception as observed by the service handler: either a
`fastapi.HTTPException` (status and detail) or any other exception carrying
its message. -/
inductive PyExc where
  | http (status : Nat) (detail : String)
  | other (msg : String)
deriving DecidableEq, Repr

/-- Python `str(e)`: for a starlette `HTTPException` this is
`"{status_code}: {detail}"`, otherwise the exception message. -/
def str_of_exc : PyExc → String
  | PyExc.http s d => toString s ++ ": " ++ d
  | PyExc.other m => m

/-- rag_service.py lines 15-30: the body of the `try` block of `rag_chat`.
`message` is the `"message"` field of the parsed JSON body (`None` when
missing).  `if not query` fires on a missing or empty message and raises
`HTTPException(status_code=400, ...)`; a non-blank message is answered via
`get_rag_response` (modelled by the `rag` argument, which may raise), and a
falsy (empty) answer is replaced by the service-level apology. -/
def rag_chat_body (rag : String → Except String String)
    (message : Option String) : Except PyExc String :=
  match message with
  | none => Except.error (PyExc.http 400 "No message provided in request")
  | some q =>
    if q == "" then Except.error (PyExc.http 400 "No message provided in request")
    else
      match rag q with
      | Except.ok response =>
        Except.ok (if response == "" then
            "I apologize, but I couldn\x27t generate a response. Please try again."
          else response)
      | Except.error e => Except.error (PyExc.other e)

/-- rag_service.py lines 13-33: the observable HTTP outcome of `rag_chat` as
a `(status, body)` pair.  The `except Exception` clause (lines 31-33) catches
every exception raised inside the `try` block — including the
`HTTPException(400)` raised for a missing message, because `HTTPException`
subclasses `Exception` — and re-raises `HTTPException(500, detail=str(e))`,
so every in-body exception surfaces as a 500 response. -/
def rag_chat (rag : String → Except String String)
    (message : Option String) : Nat × String :=
  match rag_chat_body rag message with
  | Except.ok ans => (200, ans)
  | Except.error e => (500, str_of_exc e)

/-- Claim C3 (code_bug evidence): for a request whose JSON body lacks the
`message` field, `rag_chat` responds with status 500, not a 4xx: the
`HTTPException(400)` raised inside the `try` block is swallowed by the
blanket `except Exception` and re-raised as a 500 whose detail is
`str(e) = "400: No message provided in request"`. -/
theorem missing_message_gives_500 (rag : String → Except String String) :
    rag_chat rag none = (500, "400: No message provided in request") := rfl

/-- Claim C4: the adaptive threshold is 60 on an empty batch; 70 when the
batch mean is below 40 or the (guarded) population standard deviation
exceeds 20; and 60 otherwise. -/
theorem computeThreshold_cases (scores : List ℝ) :
    (scores = [] → computeThreshold scores = 60) ∧
    (scores ≠ [] → (np_mean scores < 40 ∨ np_std_guarded scores > 20) →
      computeThreshold scores = 70) ∧
    (scores ≠ [] → ¬(np_mean scores < 40 ∨ np_std_guarded scores > 20) →
      computeThreshold scores = 60) := by
  refine ⟨fun h => by simp [computeThreshold, h], fun h hc => ?_, fun h hc => ?_⟩
  · simp only [computeThreshold, if_neg h, if_pos hc]
    norm_num
  · simp only [computeThreshold, if_neg h, if_neg hc]

/-- Witness for C4 at concrete batches: the empty batch yields 60 and the
batch [30, 35, 32] (mean 97/3 < 40) yields 70. -/
theorem computeThreshold_cases_app :
    computeThreshold [] = 60 ∧ computeThreshold [30, 35, 32] = 70 :=
  ⟨(computeThreshold_cases []).1 rfl,
   (computeThreshold_cases [30, 35, 32]).2.1 (by simp)
     (Or.inl (by norm_num [np_mean]))⟩

/-- Claim C10: whatever the batch of relevance scores, the computed
acceptance threshold is exactly 60 or exactly 70. -/
theorem threshold_only_60_or_70 (scores : List ℝ) :
    computeThreshold scores = 60 ∨ computeThreshold scores = 70 := by
  unfold computeThreshold
  split_ifs <;> norm_num

/-- Claim C8: the score converter `100 * exp (-3 d)` is strictly decreasing:
a smaller nonnegative raw distance gets a strictly greater relevance score. -/
theorem relevance_score_strict_anti (d1 d2 : ℝ) (h0 : 0 ≤ d1) (h : d1 < d2) :
    calculate_relevance_score d2 < calculate_relevance_score d1 := by
  have hexp : Real.exp (-3 * d2) < Real.exp (-3 * d1) :=
    Real.exp_lt_exp.2 (by linarith)
  unfold calculate_relevance_score
  linarith

/-- Witness for C8 at d1 = 0 < d2 = 1. -/
theorem relevance_score_strict_anti_app :
    calculate_relevance_score 1 < calculate_relevance_score 0 :=
  relevance_score_strict_anti 0 1 le_rfl (by norm_num)

/-- Claim C9: for every raw distance d ≥ 0 the converted score lies in
(0, 100], and the score of distance 0 is exactly 100. -/
theorem relevance_score_bounds (d : ℝ) (hd : 0 ≤ d) :
    0 < calculate_relevance_score d ∧ calculate_relevance_score d ≤ 100 ∧
      calculate_relevance_score 0 = 100 := by
  refine ⟨?_, ?_, ?_⟩
  · have := Real.exp_pos (-3 * d)
    unfold calculate_relevance_score
    linarith
  · have : Real.exp (-3 * d) ≤ 1 := Real.exp_le_one_iff.2 (by linarith)
    unfold calculate_relevance_score
    linarith
  · simp [calculate_relevance_score]

/-- Witness for C9 at d = 1. -/
theorem relevance_score_bounds_app :
    0 < calculate_relevance_score 1 ∧ calculate_relevance_score 1 ≤ 100 ∧
      calculate_relevance_score 0 = 100 :=
  relevance_score_bounds 1 (by norm_num)

/-- Claim C6: the filtering loop accepts exactly the candidates whose
relevance score is ≥ the threshold (so it agrees with `List.filter` by that
predicate), the accepted documents form a sublist of the candidate documents
(retrieval order preserved), and a score exactly equal to the threshold is
accepted. -/
theorem filter_accepts_iff_ge_threshold (t : ℝ) (pairs : List ((Chunk × ℝ) × ℝ)) :
    filterLoop t pairs
        = (pairs.filter (fun p => decide (p.2 ≥ t))).map (fun p => p.1.1) ∧
    (filterLoop t pairs).Sublist (pairs.map (fun p => p.1.1)) ∧
    (∀ d s rest, filterLoop t (((d, s), t) :: rest) = d :: filterLoop t rest) := by
  refine ⟨?_, ?_, ?_⟩
  · induction pairs with
    | nil => rfl
    | cons p rest ih =>
      obtain ⟨⟨d, s⟩, rel⟩ := p
      by_cases hrel : rel ≥ t
      · simp [filterLoop, List.filter_cons, hrel, ih]
      · simp [filterLoop, List.filter_cons, hrel, ih]
  · induction pairs with
    | nil => simp [filterLoop]
    | cons p rest ih =>
      obtain ⟨⟨d, s⟩, rel⟩ := p
      by_cases hrel : rel ≥ t
      · simpa [filterLoop, hrel] using ih.cons₂ d
      · simpa [filterLoop, hrel] using ih.cons d
  · intro d s rest
    simp [filterLoop]

/-- Claim C7: a blank (empty or all-whitespace) query is answered with the
fixed prompt-for-input message, whatever the retrieval and language-model
capabilities do (neither is consulted). -/
theorem blank_query_short_circuit (caps : Caps) (query : String)
    (h : isBlank query = true) :
    get_rag_response caps query = promptForInputMsg := by
  simp [get_rag_response, h]

/-- Capabilities that fail if ever consulted. -/
def capsStub : Caps :=
  ⟨fun _ _ => Except.error "retrieval invoked", fun _ => Except.error "generation invoked"⟩

/-- Witness for C7: the whitespace query "   " with always-failing
capabilities still yields the fixed message. -/
theorem blank_query_short_circuit_app :
    get_rag_response capsStub "   " = promptForInputMsg :=
  blank_query_short_circuit capsStub "   " (by decide)

/-- exp(-3) is below 0.4, via exp(-3) < exp(-1) = (exp 1)⁻¹ and
exp 1 > 2.7182818283. -/
lemma exp_neg_three_lt : Real.exp (-3) < 0.4 := by
  have h1 : Real.exp (-3) < Real.exp (-1) := Real.exp_lt_exp.2 (by norm_num)
  have h2 : Real.exp (-1 : ℝ) = (Real.exp 1)⁻¹ := by
    rw [Real.exp_neg]
  have h3 : (2.7182818283 : ℝ) < Real.exp 1 := Real.exp_one_gt_d9
  have h4 : (Real.exp 1)⁻¹ < ((2.7182818283 : ℝ))⁻¹ :=
    inv_strictAnti₀ (by norm_num) h3
  have h5 : ((2.7182818283 : ℝ))⁻¹ < 0.4 := by norm_num
  rw [h2] at h1
  linarith

/-- The relevance score of raw distance 1 is 100 * exp(-3) ≈ 4.98 < 40. -/
lemma relScore_one_lt_40 : calculate_relevance_score 1 < 40 := by
  have h : Real.exp (-3 : ℝ) < 0.4 := exp_neg_three_lt
  have he : calculate_relevance_score 1 = 100 * Real.exp (-3) := by
    norm_num [calculate_relevance_score]
  rw [he]
  linarith

/-- A single candidate at raw distance 1: the batch mean is below 40, so the
stricter threshold 70 applies, and the candidate (score < 40) is rejected —
`filtered_docs` is empty. -/
lemma filteredOf_single_one :
    filteredOf [((⟨"SECRET CHUNK"⟩ : Chunk), 1)] = [] := by
  have hs : relScores [((⟨"SECRET CHUNK"⟩ : Chunk), 1)]
      = [calculate_relevance_score 1] := by
    simp [relScores]
  have hmean : np_mean [calculate_relevance_score 1] < 40 := by
    have h40 := relScore_one_lt_40
    have hm : np_mean [calculate_relevance_score 1] = calculate_relevance_score 1 := by
      norm_num [np_mean]
    rw [hm]
    exact h40
  have hthr : computeThreshold [calculate_relevance_score 1] = 70 := by
    simp only [computeThreshold]
    rw [if_neg (show ¬([calculate_relevance_score 1] : List ℝ) = [] by simp),
      if_pos (Or.inl hmean)]
    norm_num
  simp only [filteredOf, hs, hthr, List.zip_cons_cons, List.zip_nil_right,
    filterLoop]
  rw [if_neg (show ¬(calculate_relevance_score 1 ≥ 70) by
    have := relScore_one_lt_40
    linarith)]

/-- Claim C1 (code_bug evidence): line 167 passes an EMPTY context to
`qa_chain.invoke` — the intent the claim states — but `RetrievalQA` ignores
that key and substitutes its own re-retrieved top-3 documents into the
prompt.  So on the no-evidence path (`filtered_docs` empty) the language
model is invoked with the prompt template filled with the retrieved chunks'
contents (`chainContext das`), not with the empty context, and the prompt
does contain chunk content. -/
theorem noEvidence_prompt_contains_chunks (caps : Caps) (query : String)
    (das : List (Chunk × ℝ)) (hq : isBlank query = false)
    (hr : caps.similarity_search_with_score query 3 = Except.ok das)
    (hf : filteredOf das = []) :
    get_rag_response caps query =
      (match caps.llm (custom_prompt (chainContext das) query) with
       | Except.ok r => if r == "" then noInfoMsg else r
       | Except.error e => "Error processing query: " ++ e) := by
  have hb : ragBody caps query =
      (match caps.llm (custom_prompt (chainContext das) query) with
       | Except.error e => Except.error e
       | Except.ok response =>
         Except.ok (if response == "" then noInfoMsg else response)) := by
    simp only [ragBody, qa_chain_invoke, hr]
    rw [if_pos hf]
  simp only [get_rag_response, hq, Bool.false_eq_true, if_false, hb]
  cases h : caps.llm (custom_prompt (chainContext das) query) <;> simp

/-- Below-threshold retrieval (one candidate "SECRET CHUNK" at distance 1,
score ≈ 4.98 < 70) with a language model that echoes its prompt, exposing
what the chain sends. -/
def capsProbe : Caps :=
  ⟨fun _ _ => Except.ok [((⟨"SECRET CHUNK"⟩ : Chunk), 1)], fun p => Except.ok p⟩

set_option maxRecDepth 8192 in
/-- Witness for C1 at the failing input: every candidate is below the
threshold, yet the answer is the echoed prompt — the template filled with
the chunk content "SECRET CHUNK" — which differs from the empty-context
prompt the claim requires. -/
theorem noEvidence_prompt_contains_chunks_app :
    get_rag_response capsProbe "hi" = custom_prompt "SECRET CHUNK" "hi" ∧
    custom_prompt "SECRET CHUNK" "hi" ≠ custom_prompt "" "hi" := by
  constructor
  · have h := noEvidence_prompt_contains_chunks capsProbe "hi"
      [((⟨"SECRET CHUNK"⟩ : Chunk), 1)] (by decide) rfl filteredOf_single_one
    have hc : chainContext [((⟨"SECRET CHUNK"⟩ : Chunk), 1)] = "SECRET CHUNK" := by
      decide
    rw [hc] at h
    rw [h]
    have hne : custom_prompt "SECRET CHUNK" "hi" ≠ "" := by decide
    simp [capsProbe, hne]
  · decide

/-- Claim C5: an exception raised by a collaborator is absorbed: it makes the
pipeline return the textual answer `"Error processing query: <detail>"`
(never propagating — `get_rag_response` is a total String-valued function),
both when retrieval raises and when the language model raises. -/
theorem pipeline_absorbs_failures (caps : Caps) (query : String) (e : String)
    (hq : isBlank query = false) :
    (caps.similarity_search_with_score query 3 = Except.error e →
      get_rag_response caps query = "Error processing query: " ++ e) ∧
    (∀ das, caps.similarity_search_with_score query 3 = Except.ok das →
      (∀ p, caps.llm p = Except.error e) →
      get_rag_response caps query = "Error processing query: " ++ e) := by
  constructor
  · intro hr
    simp [get_rag_response, hq, ragBody, hr]
  · intro das hr hl
    simp [get_rag_response, hq, ragBody, qa_chain_invoke, hr, hl]

/-- Capabilities whose retrieval always raises "boom". -/
def capsFail : Caps :=
  ⟨fun _ _ => Except.error "boom", fun _ => Except.ok "x"⟩

/-- Witness for C5: a raising retrieval capability yields the in-band error
answer. -/
theorem pipeline_absorbs_failures_app :
    get_rag_response capsFail "hi" = "Error processing query: boom" :=
  (pipeline_absorbs_failures capsFail "hi" "boom" (by decide)).1 rfl

/-- Capabilities whose retrieval returns no candidate and whose language
model returns the empty string for every prompt. -/
def capsEmptyLLM : Caps :=
  ⟨fun _ _ => Except.ok [], fun _ => Except.ok ""⟩

/-- Claim C2 counterexample: on the no-evidence path an empty language-model
result is NOT replaced by the apology — the engine returns the
no-relevant-information fallback instead (`return response or fallback`,
rag_engine.py line 170, returns before the line-184 guard is reached). -/
theorem blankAnswer_guard_cex :
    capsEmptyLLM.llm (custom_prompt "" "hi") = Except.ok "" ∧
    get_rag_response capsEmptyLLM "hi" = noInfoMsg ∧
    get_rag_response capsEmptyLLM "hi" ≠ apologyMsg := by
  refine ⟨rfl, by decide, by decide⟩

/-- The relevance score of raw distance 0 is 100, so a single candidate at
distance 0 produces the score batch [100]. -/
lemma relScores_single_zero :
    relScores [((⟨"ctx"⟩ : Chunk), 0)] = [100] := by
  simp [relScores, calculate_relevance_score]

/-- The adaptive threshold of the single-score batch [100] is 60. -/
lemma computeThreshold_single_100 : computeThreshold [100] = 60 := by
  have hm : np_mean [100] = 100 := by
    norm_num [np_mean]
  have hs : np_std_guarded [100] = 0 := by
    simp [np_std_guarded]
  have hnot : ¬(np_mean [100] < 40 ∨ np_std_guarded [100] > 20) := by
    rw [hm, hs]; norm_num
  simp only [computeThreshold, if_neg hnot]
  rw [if_neg (show ¬([100] : List ℝ) = [] by simp)]

/-- A single candidate at raw distance 0 is accepted (score 100 ≥ 60). -/
lemma filteredOf_single_zero :
    filteredOf [((⟨"ctx"⟩ : Chunk), 0)] = [(⟨"ctx"⟩ : Chunk)] := by
  have h100 : calculate_relevance_score 0 = 100 := by
    simp [calculate_relevance_score]
  simp only [filteredOf, relScores_single_zero, computeThreshold_single_100,
    List.zip_cons_cons, List.zip_nil_right, filterLoop]
  rw [if_pos (show calculate_relevance_score 0 ≥ 60 by rw [h100]; norm_num)]

/-- Claim C2, amended: the blank-answer guard applies on the evidence path
only.  On the evidence path an empty or all-whitespace model result yields
the fixed apology; on the no-evidence path an empty model result yields the
no-relevant-information fallback instead. -/
theorem blankAnswer_guard_amended (caps : Caps) (query : String)
    (das : List (Chunk × ℝ)) (hq : isBlank query = false)
    (hr : caps.similarity_search_with_score query 3 = Except.ok das) :
    (∀ r, filteredOf das ≠ [] →
      qa_chain_invoke caps query (contextOf das) = Except.ok r →
      (r == "" || pyStrip r == "") = true →
      get_rag_response caps query = apologyMsg) ∧
    (filteredOf das = [] →
      qa_chain_invoke caps query "" = Except.ok "" →
      get_rag_response caps query = noInfoMsg) := by
  constructor
  · intro r hf hl hblank
    simp only [get_rag_response, hq, Bool.false_eq_true, if_false, ragBody, hr]
    rw [if_neg hf, hl]
    simp [hblank]
  · intro hf hl
    simp only [get_rag_response, hq, Bool.false_eq_true, if_false, ragBody, hr]
    rw [if_pos hf, hl]
    simp

/-- Capabilities retrieving one candidate at distance 0 (accepted) with a
language model answering a single space (all-whitespace) to every prompt. -/
def capsWS : Caps :=
  ⟨fun _ _ => Except.ok [((⟨"ctx"⟩ : Chunk), 0)], fun _ => Except.ok " "⟩

/-- Witness for the amended C2: on the evidence path an all-whitespace model
result yields the apology; on the no-evidence path an empty result yields the
fallback text. -/
theorem blankAnswer_guard_amended_app :
    get_rag_response capsWS "hi" = apologyMsg ∧
    get_rag_response capsEmptyLLM "hi" = noInfoMsg := by
  constructor
  · exact (blankAnswer_guard_amended capsWS "hi" [((⟨"ctx"⟩ : Chunk), 0)]
      (by decide) rfl).1 " "
      (by rw [filteredOf_single_zero]; simp) rfl (by decide)
  · exact (blankAnswer_guard_amended capsEmptyLLM "hi" [] (by decide) rfl).2 rfl rfl
